import Mathlib

/-!
Shallow embedding of the causal chat analysis backend (src/api.py) and proofs
about the claims on its specification.

Modelling conventions: Python floats are modelled as rationals, Python dicts
with a fixed key set as structures, the per-turn signal dict as an association
list, and functions that can raise as `Except`-valued parameters.  Python's
`round` rounds half to even; it is modelled as round half up, which agrees
with it at every non-tie argument (no tie is evaluated in this development).
-/

namespace CausalApi

/-- A raw conversation turn as received by the analyze endpoint: a dict with a
`speaker` and a `text` entry; `text` is `none` when the key is missing or its
value is Python `None` (the source reads it as `turn.get here with a default
and coalesces falsy values to the empty string). -/
structure Turn where
  speaker : String
  text : Option String
deriving DecidableEq

/-- A preprocessed turn (the flattened dicts of `processed_turns`): 1-based
`turn_number`, `speaker`, `text`, owning `transcript_id` and an optional
`outcome` label. -/
structure PTurn where
  turn_number : Nat
  speaker : String
  text : String
  transcript_id : String
  outcome : Option String
deriving DecidableEq

/-- A transcript record; only the fields read by the modelled endpoints. -/
structure Transcript where
  transcript_id : String
  domain : String
  intent : String
  conversation : List Turn
deriving DecidableEq

/-- Python substring containment over character lists: `containsSub hay needle`
is true when `needle` occurs contiguously in `hay` (checks every suffix for
`needle` as a prefix, `needle in hay` in the source). -/
def containsSub : List Char → List Char → Bool
  | [], needle => needle.isEmpty
  | c :: t, needle => needle.isPrefixOf (c :: t) || containsSub t needle

/-- Python `needle in hay` on strings. -/
def strIn (needle hay : String) : Bool := containsSub hay.data needle.data

/-- Python `str.lower` (the source only lowercases ASCII keyword text). -/
def pyLower (s : String) : String := ⟨s.data.map Char.toLower⟩

/-- Python `str.strip`: drop whitespace from both ends. -/
def pyStrip (s : String) : String :=
  ⟨((s.data.dropWhile Char.isWhitespace).reverse.dropWhile Char.isWhitespace).reverse⟩

/-- Python `str.replace` for a one-character pattern and replacement (the only
form the source uses, `signal.replace with underscore and space`): replaces
every occurrence of the character. -/
def pyReplaceChar (pat rep : Char) (s : String) : String :=
  ⟨s.data.map (fun c => if c = pat then rep else c)⟩

/-- Python `round(q, ndigits)`, modelled as round half up (see the file
header note on Python's round-half-to-even). -/
def pyRound (ndigits : Nat) (q : ℚ) : ℚ :=
  ((round (q * 10 ^ ndigits) : ℤ) : ℚ) / 10 ^ ndigits

/-- The frustration keyword list of `extract_signals_fallback`. -/
def frustration_keywords : List String :=
  ["frustrated", "angry", "upset", "disappointed", "annoyed", "furious", "mad"]

/-- The delay keyword list of `extract_signals_fallback`. -/
def delay_keywords : List String :=
  ["wait", "slow", "delay", "busy", "long", "hours", "days", "minutes"]

/-- The denial keyword list of `extract_signals_fallback`. -/
def denial_keywords : List String :=
  ["cannot", "denied", "no", "impossible", "can\x27t", "won\x27t", "refused"]

/-- src/api.py `extract_signals_fallback`: lowercase the turn text (missing or
None text becomes the empty string) and emit one signal name per keyword
family that has a substring hit, in the source's append order. -/
def extract_signals_fallback (turn : Turn) : List String :=
  let text := pyLower (turn.text.getD "")
  (if frustration_keywords.any (fun kw => strIn kw text) then ["customer_frustration"] else [])
    ++ (if delay_keywords.any (fun kw => strIn kw text) then ["agent_delay"] else [])
    ++ (if denial_keywords.any (fun kw => strIn kw text) then ["agent_denial"] else [])

/-- The per-turn signal dict of the analyze endpoint (`turn_signals`),
modelled as an association list from turn number to the signals of that
turn (keys are unique in the source, inserted in turn order). -/
abbrev SignalDict := List (Nat × List String)

/-- Python `turn_signals.get(k, [])` on the association-list model. -/
def dget (d : SignalDict) (k : Nat) : List String :=
  ((d.find? (fun p => p.1 == k)).map (fun p => p.2)).getD []

/-- The accumulation loop of src/api.py `extract_causal_chain`: walk the
signal list, appending each signal to `chain` the first time it is seen,
tracking membership in `seen`. -/
def dedupLoop : List String → List String → List String → List String
  | chain, _, [] => chain
  | chain, seen, s :: rest =>
    if s ∈ seen then dedupLoop chain seen rest
    else dedupLoop (chain ++ [s]) (s :: seen) rest

/-- src/api.py `extract_causal_chain`: first-occurrence deduplication of the
flat signal list, then truncation to the first 3 entries (the source comment
says the limit is for clarity).  `turns` and `turn_signals` are accepted and
ignored exactly as in the source. -/
def extract_causal_chain (turns : List PTurn) (all_signals : List String)
    (turn_signals : SignalDict) : List String :=
  (dedupLoop [] [] all_signals).take 3

/-- Modelled from the spec: the causal chain as the spec defines it, the
ordered, deduplicated sequence of signal names in first-occurrence order,
stated as a fold that appends each name not yet present.  Used only to compare
`extract_causal_chain` against the spec's wording. -/
def spec_first_occurrence_dedup (signals : List String) : List String :=
  signals.foldl (fun acc s => if s ∈ acc then acc else acc ++ [s]) []

/-- The human-readable synonym table of src/api.py `generate_explanation`
(`signal_names`), with the source's fallback of replacing underscores by
spaces for names outside the table. -/
def signal_names_readable (signal : String) : String :=
  if signal = "customer_frustration" then "customer frustration"
  else if signal = "agent_delay" then "agent delays"
  else if signal = "agent_denial" then "agent denials"
  else pyReplaceChar '_' ' ' signal

/-- src/api.py `generate_explanation`: a sentence chosen by chain length;
`turns` and `all_signals` are accepted and ignored exactly as in the source. -/
def generate_explanation (causal_chain : List String) (turns : List PTurn)
    (all_signals : List String) : String :=
  match causal_chain with
  | [] => "No escalation signals detected in this conversation."
  | [signal] =>
    "The primary escalation factor in this conversation was "
      ++ signal_names_readable signal
      ++ ". This pattern was present throughout the interaction and contributed to the negative outcome."
  | [s1, s2] =>
    "This conversation shows a sequence of escalation factors: First, "
      ++ signal_names_readable s1
      ++ " was present. Then, "
      ++ signal_names_readable s2
      ++ " occurred, which compounded the issue. Together, these factors led to escalation."
  | s1 :: s2 :: s3 :: rest =>
    let chain := s1 :: s2 :: s3 :: rest
    let signals_text := String.intercalate ", " (chain.dropLast.map signal_names_readable)
    let last_signal := signal_names_readable (chain.getLastD "")
    "This conversation demonstrates a critical escalation sequence: "
      ++ signals_text
      ++ ", and finally "
      ++ last_signal
      ++ ". At each stage, the situation deteriorated, leading to a clear escalation pattern."

/-- An evidence item of src/api.py `extract_evidence` (`turn_number`,
`speaker`, `text`, `signals`). -/
structure Evidence where
  turn_number : Nat
  speaker : String
  text : String
  signals : List String
deriving DecidableEq

/-- src/api.py `extract_evidence`: walk the turns in order and keep, for each
turn whose signal list is non-empty, an evidence item with that turn's number,
speaker, text and signals. -/
def extract_evidence : List PTurn → SignalDict → List Evidence
  | [], _ => []
  | turn :: rest, turn_signals =>
    let signals := dget turn_signals turn.turn_number
    if signals ≠ [] then
      { turn_number := turn.turn_number, speaker := turn.speaker,
        text := turn.text, signals := signals } :: extract_evidence rest turn_signals
    else extract_evidence rest turn_signals

/-- src/api.py `calculate_risk_score`: 0 for no signals, otherwise a capped
mix of signal density and the mean position of signal-bearing turns. -/
def calculate_risk_score (turns : List PTurn) (all_signals : List String)
    (turn_signals : SignalDict) : ℚ :=
  if all_signals = [] then 0
  else
    let signal_density := min 1 ((all_signals.length : ℚ) / (turns.length : ℚ))
    let signal_positions := (turn_signals.filter (fun p => !p.2.isEmpty)).map (fun p => p.1)
    let mixed :=
      if signal_positions = [] then signal_density
      else
        let avg_position := ((signal_positions.sum : ℕ) : ℚ) / (signal_positions.length : ℚ)
        let position_factor := avg_position / (turns.length : ℚ)
        signal_density * 0.6 + position_factor * 0.4
    min 1 mixed

/-- The `escalated` flag computed by src/api.py `analyze_user_transcript`:
true exactly when the risk score exceeds 0.6. -/
def escalated (turns : List PTurn) (all_signals : List String)
    (turn_signals : SignalDict) : Bool :=
  decide (0.6 < calculate_risk_score turns all_signals turn_signals)

/-- The statistics payload of src/api.py `get_stats`. -/
structure StatsData where
  total_transcripts : Nat
  total_turns : Nat
  escalated_conversations : Nat
  resolved_conversations : Nat
  escalation_rate : ℚ
  avg_turns_per_conversation : ℚ
deriving DecidableEq

/-- The hardcoded default payload `get_stats` returns when no data is
available (and also from its exception handler). -/
def fallback_stats : StatsData :=
  { total_transcripts := 5037
    total_turns := 84465
    escalated_conversations := 1561
    resolved_conversations := 3476
    escalation_rate := 31.0
    avg_turns_per_conversation := 16.75 }

/-- src/api.py `get_stats` (the success flag of the JSON envelope paired with
the data payload): the fallback payload when either list is empty, otherwise
counts of distinct escalated/resolved transcript ids among the processed
turns, with the source's rounded ratio fields. -/
def get_stats (transcripts : List Transcript) (processed : List PTurn) :
    Bool × StatsData :=
  if transcripts = [] ∨ processed = [] then (true, fallback_stats)
  else
    let escalated_ids :=
      ((processed.filter (fun t => decide (t.outcome = some "ESCALATED"))).map
        (fun t => t.transcript_id)).dedup
    let resolved_ids :=
      ((processed.filter (fun t => decide (t.outcome = some "RESOLVED"))).map
        (fun t => t.transcript_id)).dedup
    let total_turns := processed.length
    (true,
      { total_transcripts := transcripts.length
        total_turns := total_turns
        escalated_conversations := escalated_ids.length
        resolved_conversations := resolved_ids.length
        escalation_rate :=
          if transcripts ≠ [] then
            pyRound 2 ((escalated_ids.length : ℚ) / (transcripts.length : ℚ) * 100)
          else 0
        avg_turns_per_conversation :=
          if transcripts ≠ [] then
            pyRound 2 ((total_turns : ℚ) / (transcripts.length : ℚ))
          else 0 })

/-- The global data cache of src/api.py (`_cache`), restricted to the slots
the modelled loader reads or writes.  The engine slots (`signals`, `warnings`,
`detector`, `query_engine`, `session_manager`) are omitted: the loader's
causal-module block only assigns them and swallows its own exceptions, so no
modelled claim depends on them. -/
structure Cache where
  transcripts : Option (List Transcript)
  processed : Option (List PTurn)
  load_error : Option String
  loading : Bool
  loaded : Bool
deriving DecidableEq

/-- src/api.py `load_data_with_timeout` as a state transformer on the cache.
The external `load_transcripts` call is a parameter: `Except.error` models it
raising, `Except.ok []` models it returning an empty (or falsy) corpus.
`preprocess_result` is the `preprocess_transcripts` call, also fallible.  The
Python `finally` clears the loading flag on every path that passes the two
guard branches; the except handler resets both data slots to empty lists and
records the error, then marks the cache loaded. -/
def load_data_with_timeout (load_result : Except String (List Transcript))
    (preprocess_result : List Transcript → Except String (List PTurn))
    (c : Cache) : Cache × (List Transcript × List PTurn) :=
  if c.loaded then (c, (c.transcripts.getD [], c.processed.getD []))
  else if c.loading then (c, ([], []))
  else
    match load_result with
    | Except.error e =>
      ({ c with
          transcripts := some [], processed := some [], load_error := some e,
          loaded := true, loading := false }, ([], []))
    | Except.ok ts =>
      if ts = [] then
        ({ c with
            transcripts := some [], processed := some [],
            loaded := true, loading := false }, ([], []))
      else
        match preprocess_result ts with
        | Except.error e =>
          ({ c with
              transcripts := some [], processed := some [], load_error := some e,
              loaded := true, loading := false }, ([], []))
        | Except.ok ps =>
          ({ c with
              transcripts := some ts, processed := some ps,
              loaded := true, loading := false }, (ts, ps))

/-- One stored chain statistics record (the values of `detector.chain_stats`
read by `get_chain_stats`). -/
structure ChainStats where
  confidence : ℚ
  confidence_interval : ℚ × ℚ
  occurrences : Nat
  escalated_count : Nat
  resolved_count : Nat
deriving DecidableEq

/-- One entry of the `chains` list built by src/api.py `get_chain_stats`. -/
structure ChainEntry where
  chain : List String
  chain_string : String
  confidence : ℚ
  confidence_interval : ℚ × ℚ
  occurrences : Nat
  escalated_count : Nat
  resolved_count : Nat
deriving DecidableEq

/-- The entry `get_chain_stats` builds from one `(chain_key, stats)` pair:
confidence and interval rounded to 3 places for display, counts copied.  The
joining string reproduces the source's literal byte sequence. -/
def mkChainEntry (p : List String × ChainStats) : ChainEntry :=
  { chain := p.1
    chain_string := String.intercalate " â†’ " p.1
    confidence := pyRound 3 p.2.confidence
    confidence_interval := (pyRound 3 p.2.confidence_interval.1, pyRound 3 p.2.confidence_interval.2)
    occurrences := p.2.occurrences
    escalated_count := p.2.escalated_count
    resolved_count := p.2.resolved_count }

/-- Descending order on entry confidence, the sort key of `get_chain_stats`
(`reverse=True` in the source). -/
def confGE (a b : ChainEntry) : Prop := b.confidence ≤ a.confidence

instance : DecidableRel confGE := fun a b => inferInstanceAs (Decidable (b.confidence ≤ a.confidence))

instance : IsTotal ChainEntry confGE := ⟨fun a b => le_total b.confidence a.confidence⟩

instance : IsTrans ChainEntry confGE := ⟨fun _ _ _ hab hbc => le_trans hbc hab⟩

/-- src/api.py `get_chain_stats`: keep the stats records passing both filters,
build display entries, sort by confidence descending and keep the top 50.
Python's `list.sort` is a stable sort, and a stable sort by a total preorder
has a unique result, so the stable `List.insertionSort` models it exactly. -/
def get_chain_stats (chain_stats : List (List String × ChainStats))
    (min_confidence : ℚ) (min_evidence : Nat) : List ChainEntry :=
  (List.insertionSort confGE
    ((chain_stats.filter (fun p =>
      decide (min_confidence ≤ p.2.confidence) && decide (min_evidence ≤ p.2.occurrences))).map
      mkChainEntry)).take 50

/-- src/api.py `generate_followup_response`: template answers selected by
keyword groups found in the lowercased question. -/
def generate_followup_response (question : String) (transcript : Option String)
    (previous_analysis : Option String) : String :=
  let question_lower := pyLower question
  if ["what if", "if the agent"].any (fun w => strIn w question_lower) then
    "Based on the conversation dynamics, if the agent had responded faster, it likely would have reduced the escalation risk. Early agent response is critical for de-escalation, especially when customer frustration is present."
  else if ["similar", "similar cases", "other"].any (fun w => strIn w question_lower) then
    "Unfortunately, we only analyzed this single transcript. In a full system, we would search our database of analyzed conversations to find cases with similar escalation patterns. This would help you understand how prevalent these issues are across your conversations."
  else if ["how", "how can", "how to"].any (fun w => strIn w question_lower) then
    "To prevent escalation in future conversations: 1) Train agents to respond quickly, 2) Implement empathy-first communication, 3) Empower agents to handle denials with alternatives, 4) Monitor for frustration signals early in conversations."
  else
    "Thank you for your follow-up question. The analysis provided shows the key escalation factors in this conversation. To get more specific insights, try asking about: what-if scenarios, similar cases, prevention strategies, or specific turns."

/-- The followup response dict built by the query endpoint. -/
structure FollowupResponse where
  type : String
  response : String
  session_id : String
deriving DecidableEq

/-- One recorded query of a session history (the arguments of `add_query`). -/
structure QueryRecord where
  question : String
  response_type : String
  response_data : FollowupResponse
  transcript_id : Option String
deriving DecidableEq

/-- Modelled from the spec: `QueryContext` lives in src/query_context.py,
which is not under src/.  Per spec section 4.5 a session carries an opaque
`session_id` and an ordered query history that `add_query` appends to.
Context payloads are not modelled; no modelled code path reads them. -/
structure Session where
  session_id : String
  query_history : List QueryRecord
deriving DecidableEq

/-- Modelled from the spec: `SessionManager` (src/query_context.py, not under
src/) as a registry of sessions keyed by id, with a counter feeding the
generated opaque identifiers. -/
structure SessionManager where
  sessions : List (String × Session)
  counter : Nat
deriving DecidableEq

/-- Modelled from the spec: generated opaque session identifiers, unique by
construction from the manager's counter. -/
def gen_session_id (n : Nat) : String := "session_" ++ toString n

/-- Modelled from the spec: `create_session` uses the supplied identifier or
generates a fresh one, registers an empty session and returns it. -/
def create_session (sm : SessionManager) (sid : Option String) :
    Session × SessionManager :=
  match sid with
  | some s =>
    (⟨s, []⟩, ⟨sm.sessions ++ [(s, ⟨s, []⟩)], sm.counter⟩)
  | none =>
    let s := gen_session_id sm.counter
    (⟨s, []⟩, ⟨sm.sessions ++ [(s, ⟨s, []⟩)], sm.counter + 1⟩)

/-- Modelled from the spec: `get_session` is a lookup by identifier. -/
def get_session (sm : SessionManager) (sid : String) : Option Session :=
  ((sm.sessions.find? (fun p => p.1 == sid)).map (fun p => p.2))

/-- Modelled from the spec: `add_query` appends one record to the history of
the session with the given identifier. -/
def add_query (sm : SessionManager) (sid : String) (q : QueryRecord) :
    SessionManager :=
  ⟨sm.sessions.map (fun p =>
    if p.1 == sid then (p.1, ⟨p.2.session_id, p.2.query_history ++ [q]⟩) else p),
   sm.counter⟩

/-- The request body of the query endpoint; absent JSON keys are `none`. -/
structure QueryRequest where
  question : Option String
  session_id : Option String
  transcript : Option String
  previous_analysis : Option String
deriving DecidableEq

/-- The JSON envelope the query endpoint returns, with the HTTP status. -/
structure QueryResult where
  success : Bool
  error : Option String
  status : Nat
  session_id : Option String
  data : Option FollowupResponse
deriving DecidableEq

/-- src/api.py `query_engine_endpoint` as a state transformer on the session
store: strip the question; on an empty question return the 400 error without
touching the store; otherwise resolve or create the session, build the
followup response and append the query record to that session's history. -/
def query_engine_endpoint (req : QueryRequest) (sm : SessionManager) :
    QueryResult × SessionManager :=
  let question := pyStrip (req.question.getD "")
  if question = "" then
    ({ success := false, error := some "No question provided", status := 400,
       session_id := none, data := none }, sm)
  else
    let resolved :=
      match req.session_id with
      | some sid =>
        match get_session sm sid with
        | some c => (c, sm)
        | none => create_session sm (some sid)
      | none => create_session sm none
    let sid := resolved.1.session_id
    let response : FollowupResponse :=
      ⟨"followup", generate_followup_response question req.transcript req.previous_analysis, sid⟩
    let sm2 := add_query resolved.2 sid ⟨question, response.type, response, none⟩
    ({ success := true, error := none, status := 200,
       session_id := some sid, data := some response }, sm2)

/-- Claim C5: signal extraction is total (a total Lean function by
construction, matching the source's never-throwing keyword scan), and a turn
whose text is missing, None or the empty string yields the empty signal
list. -/
theorem extract_signals_fallback_degenerate (t : Turn)
    (h : t.text = none ∨ t.text = some "") : extract_signals_fallback t = [] := by
  rcases t with ⟨sp, tx⟩
  rcases h with h | h
  · obtain rfl : tx = none := h
    rfl
  · obtain rfl : tx = some "" := h
    rfl

/-- Witness for the C5 theorem at a concrete turn with missing text. -/
theorem extract_signals_fallback_degenerate_witness :
    extract_signals_fallback ⟨"CUSTOMER", none⟩ = [] :=
  extract_signals_fallback_degenerate ⟨"CUSTOMER", none⟩ (Or.inl rfl)

/-- Claim C6: on the spec's worked example the customer turn yields the
customer frustration signal and the agent turn yields the agent denial
signal. -/
theorem extract_signals_fallback_examples :
    "customer_frustration" ∈
      extract_signals_fallback ⟨"CUSTOMER", some "I am frustrated and angry"⟩
    ∧ "agent_denial" ∈
      extract_signals_fallback ⟨"AGENT", some "Unfortunately I cannot help, it\x27s impossible"⟩ := by
  decide

/-- Claim C3 counterexample: on the empty corpus `get_stats` succeeds but its
payload carries the hardcoded count 5037, not zero transcripts. -/
theorem get_stats_empty_counterexample :
    (get_stats [] []).1 = true ∧ (get_stats [] []).2.total_transcripts = 5037
    ∧ ¬ (get_stats [] []).2.total_transcripts = 0 := by
  decide

/-- Claim C3 (amended): on an empty corpus the stats operation succeeds
without failing the process, returning the fixed fallback statistics payload
(5037 transcripts, 84465 turns, 1561 escalated, 3476 resolved) rather than
zeros. -/
theorem get_stats_empty_fallback (processed : List PTurn) :
    get_stats [] processed = (true, fallback_stats) := by
  simp [get_stats]

/-- Claim C4 (amended): while a build is in flight (loading set, loaded not
yet set) the loader performs no loading and no cache mutation and returns the
empty pair, so no duplicate build is triggered. -/
theorem load_data_with_timeout_loading_guard
    (load_result : Except String (List Transcript))
    (preprocess_result : List Transcript → Except String (List PTurn))
    (c : Cache) (h1 : c.loading = true) (h2 : c.loaded = false) :
    load_data_with_timeout load_result preprocess_result c = (c, ([], [])) := by
  simp [load_data_with_timeout, h1, h2]

/-- Witness for the C4 theorem on a concrete in-flight cache. -/
theorem load_data_with_timeout_loading_guard_witness :
    load_data_with_timeout (Except.ok []) (fun _ => Except.ok [])
        ⟨none, none, none, true, false⟩
      = (⟨none, none, none, true, false⟩, ([], [])) :=
  load_data_with_timeout_loading_guard (Except.ok []) (fun _ => Except.ok [])
    ⟨none, none, none, true, false⟩ rfl rfl

/-- Claim C4 counterexample: the result handed to a caller that arrives
during a build is byte-identical to the result of a successfully loaded empty
corpus (the second call below runs on a cache whose load completed), so the
not-ready case is not distinguishable from an empty corpus by the returned
value. -/
theorem load_data_with_timeout_not_distinguishable :
    ((load_data_with_timeout (Except.ok []) (fun _ => Except.ok [])
        ⟨none, none, none, false, false⟩).1).loaded = true
    ∧ (load_data_with_timeout (Except.ok []) (fun _ => Except.ok [])
        ⟨none, none, none, true, false⟩).2
      = (load_data_with_timeout (Except.ok []) (fun _ => Except.ok [])
          ((load_data_with_timeout (Except.ok []) (fun _ => Except.ok [])
            ⟨none, none, none, false, false⟩).1)).2 := by
  decide

/-- Claim C10: when the request carries no non-empty question the query
endpoint returns the explicit 400 error envelope and the session store is
returned unchanged, so no session is created and no query is appended. -/
theorem query_engine_endpoint_invalid_atomic (req : QueryRequest)
    (sm : SessionManager) (h : pyStrip (req.question.getD "") = "") :
    query_engine_endpoint req sm =
      ({ success := false, error := some "No question provided", status := 400,
         session_id := none, data := none }, sm) := by
  simp [query_engine_endpoint, h]

/-- Witness for the C10 theorem on a questionless request. -/
theorem query_engine_endpoint_invalid_atomic_witness :
    query_engine_endpoint ⟨none, none, none, none⟩ ⟨[], 0⟩ =
      ({ success := false, error := some "No question provided", status := 400,
         session_id := none, data := none }, ⟨[], 0⟩) :=
  query_engine_endpoint_invalid_atomic ⟨none, none, none, none⟩ ⟨[], 0⟩ (by decide)

/-- The accumulation loop of `extract_causal_chain` computes the spec's
first-occurrence fold whenever the seen set and the chain agree as sets. -/
theorem dedupLoop_eq_foldl (rest : List String) :
    ∀ chain seen : List String, (∀ x, x ∈ seen ↔ x ∈ chain) →
      dedupLoop chain seen rest
        = rest.foldl (fun acc s => if s ∈ acc then acc else acc ++ [s]) chain := by
  induction rest with
  | nil => intro chain seen _; rfl
  | cons s rest ih =>
    intro chain seen h
    by_cases hs : s ∈ seen
    · have hc : s ∈ chain := (h s).1 hs
      simp only [dedupLoop, if_pos hs, List.foldl_cons, if_pos hc]
      exact ih chain seen h
    · have hc : s ∉ chain := fun hmem => hs ((h s).2 hmem)
      simp only [dedupLoop, if_neg hs, List.foldl_cons, if_neg hc]
      refine ih (chain ++ [s]) (s :: seen) ?_
      intro x
      simp only [List.mem_cons, List.mem_append, List.mem_singleton, h x]
      tauto

/-- Membership in the first-occurrence fold: an element is in the result
exactly when it is in the accumulator or in the input. -/
theorem mem_foldl_first_occurrence (sigs : List String) :
    ∀ (acc : List String) (x : String),
      x ∈ sigs.foldl (fun acc s => if s ∈ acc then acc else acc ++ [s]) acc
        ↔ x ∈ acc ∨ x ∈ sigs := by
  induction sigs with
  | nil => intro acc x; simp
  | cons s sigs ih =>
    intro acc x
    by_cases hs : s ∈ acc
    · rw [List.foldl_cons, if_pos hs, ih]
      simp only [List.mem_cons]
      constructor
      · rintro (h | h)
        · exact Or.inl h
        · exact Or.inr (Or.inr h)
      · rintro (h | rfl | h)
        · exact Or.inl h
        · exact Or.inl hs
        · exact Or.inr h
    · rw [List.foldl_cons, if_neg hs, ih]
      simp only [List.mem_append, List.mem_singleton, List.mem_cons]
      tauto

/-- The first-occurrence fold preserves freedom from duplicates. -/
theorem nodup_foldl_first_occurrence (sigs : List String) :
    ∀ acc : List String, acc.Nodup →
      (sigs.foldl (fun acc s => if s ∈ acc then acc else acc ++ [s]) acc).Nodup := by
  induction sigs with
  | nil => intro acc h; exact h
  | cons s sigs ih =>
    intro acc h
    by_cases hs : s ∈ acc
    · rw [List.foldl_cons, if_pos hs]
      exact ih acc h
    · rw [List.foldl_cons, if_neg hs]
      refine ih (acc ++ [s]) ?_
      simp [List.nodup_append, h, hs]

/-- Claim C1 counterexample: a transcript observing four distinct signal
names loses the fourth one, since `extract_causal_chain` truncates the chain
to its first three entries, so not every distinct input name appears in the
chain. -/
theorem extract_causal_chain_counterexample :
    "agent_deflection" ∈ (["customer_frustration", "agent_delay", "agent_denial",
        "agent_deflection"] : List String)
    ∧ "agent_deflection" ∉ extract_causal_chain []
        ["customer_frustration", "agent_delay", "agent_denial", "agent_deflection"] [] := by
  decide

/-- Claim C1 (amended): the chain is the ordered first-occurrence
deduplication of the observed signal names truncated to its first three
entries; it never repeats a name, and whenever at most three distinct names
occur it contains exactly the distinct names of the input. -/
theorem extract_causal_chain_spec (turns : List PTurn) (all_signals : List String)
    (turn_signals : SignalDict) :
    extract_causal_chain turns all_signals turn_signals
      = (spec_first_occurrence_dedup all_signals).take 3
    ∧ (extract_causal_chain turns all_signals turn_signals).Nodup
    ∧ ((spec_first_occurrence_dedup all_signals).length ≤ 3 →
        ∀ s, s ∈ extract_causal_chain turns all_signals turn_signals ↔ s ∈ all_signals) := by
  have heq : extract_causal_chain turns all_signals turn_signals
      = (spec_first_occurrence_dedup all_signals).take 3 := by
    unfold extract_causal_chain spec_first_occurrence_dedup
    rw [dedupLoop_eq_foldl all_signals [] [] (by simp)]
  refine ⟨heq, ?_, ?_⟩
  · rw [heq]
    exact List.Nodup.sublist (List.take_sublist _ _)
      (nodup_foldl_first_occurrence all_signals [] List.nodup_nil)
  · intro hlen s
    rw [heq, List.take_of_length_le hlen, spec_first_occurrence_dedup,
      mem_foldl_first_occurrence]
    simp

/-- Witness for the C1 theorem: with at most three distinct names the chain
has the same members as the input. -/
theorem extract_causal_chain_spec_witness :
    "agent_delay" ∈ extract_causal_chain []
        ["customer_frustration", "agent_delay", "customer_frustration"] []
      ↔ "agent_delay" ∈ ["customer_frustration", "agent_delay", "customer_frustration"] :=
  (extract_causal_chain_spec []
    ["customer_frustration", "agent_delay", "customer_frustration"] []).2.2
    (by decide) "agent_delay"

/-- Claim C2: the explanation generator is a total deterministic function of
the causal chain alone; the empty chain yields the no-signals sentence,
length one the single-factor sentence, length two the sequential sentence,
length three or more the narrative whose enumeration ends in the readable
name of the last signal, and names outside the synonym table are rendered by
replacing underscores with spaces. -/
theorem generate_explanation_spec (chain : List String) (t1 t2 : List PTurn)
    (s1 s2 : List String) :
    generate_explanation chain t1 s1 = generate_explanation chain t2 s2
    ∧ (chain = [] → generate_explanation chain t1 s1 =
        "No escalation signals detected in this conversation.")
    ∧ (∀ s, chain = [s] → generate_explanation chain t1 s1 =
        "The primary escalation factor in this conversation was "
          ++ signal_names_readable s
          ++ ". This pattern was present throughout the interaction and contributed to the negative outcome.")
    ∧ (∀ a b, chain = [a, b] → generate_explanation chain t1 s1 =
        "This conversation shows a sequence of escalation factors: First, "
          ++ signal_names_readable a
          ++ " was present. Then, "
          ++ signal_names_readable b
          ++ " occurred, which compounded the issue. Together, these factors led to escalation.")
    ∧ (3 ≤ chain.length → ∃ pre, generate_explanation chain t1 s1 =
        pre ++ ", and finally "
          ++ signal_names_readable (chain.getLastD "")
          ++ ". At each stage, the situation deteriorated, leading to a clear escalation pattern.")
    ∧ (∀ s, s ∉ (["customer_frustration", "agent_delay", "agent_denial"] : List String) →
        signal_names_readable s = pyReplaceChar '_' ' ' s) := by
  refine ⟨?_, ?_, ?_, ?_, ?_, ?_⟩
  · rcases chain with _ | ⟨a, _ | ⟨b, _ | ⟨c, rest⟩⟩⟩ <;> rfl
  · rintro rfl; rfl
  · rintro s rfl; rfl
  · rintro a b rfl; rfl
  · intro hlen
    rcases chain with _ | ⟨a, _ | ⟨b, _ | ⟨c, rest⟩⟩⟩
    · simp at hlen
    · simp at hlen
    · simp at hlen
    · exact ⟨"This conversation demonstrates a critical escalation sequence: "
        ++ String.intercalate ", " ((a :: b :: c :: rest).dropLast.map signal_names_readable),
        rfl⟩
  · intro s hs
    simp only [List.mem_cons, List.mem_singleton, not_or] at hs
    unfold signal_names_readable
    rw [if_neg hs.1, if_neg hs.2.1, if_neg hs.2.2.1]

/-- Witness for the C2 theorem: the empty-chain sentence and the underscore
fallback, both at concrete inputs. -/
theorem generate_explanation_spec_witness :
    generate_explanation [] [] [] = "No escalation signals detected in this conversation."
    ∧ signal_names_readable "agent_transfer" = "agent transfer" := by
  constructor
  · exact (generate_explanation_spec [] [] [] [] []).2.1 rfl
  · have h := (generate_explanation_spec [] [] [] [] []).2.2.2.2.2 "agent_transfer" (by decide)
    rw [h]
    decide

/-- Claim C8: evidence extraction keeps exactly the turns whose signal list
is non-empty, in input order, each item carrying the turn's number, speaker,
text and signals, with no cap; when the turn numbers increase along the
input, the evidence turn numbers increase as well. -/
theorem extract_evidence_spec (turns : List PTurn) (d : SignalDict) :
    extract_evidence turns d
      = (turns.filter (fun t => decide (dget d t.turn_number ≠ []))).map
          (fun t => ⟨t.turn_number, t.speaker, t.text, dget d t.turn_number⟩)
    ∧ ((turns.map PTurn.turn_number).Pairwise (· < ·) →
        ((extract_evidence turns d).map Evidence.turn_number).Pairwise (· < ·)) := by
  have heq : extract_evidence turns d
      = (turns.filter (fun t => decide (dget d t.turn_number ≠ []))).map
          (fun t => ⟨t.turn_number, t.speaker, t.text, dget d t.turn_number⟩) := by
    induction turns with
    | nil => rfl
    | cons t rest ih =>
      by_cases hc : dget d t.turn_number = []
      · simp [extract_evidence, hc, List.filter_cons, ih]
      · simp [extract_evidence, hc, List.filter_cons, ih]
  refine ⟨heq, ?_⟩
  intro hp
  rw [heq, List.map_map]
  have hfun : (Evidence.turn_number ∘ fun t : PTurn =>
      (⟨t.turn_number, t.speaker, t.text, dget d t.turn_number⟩ : Evidence))
      = PTurn.turn_number := rfl
  rw [hfun]
  exact List.Pairwise.sublist
    (List.Sublist.map PTurn.turn_number (List.filter_sublist turns)) hp

/-- Witness for the C8 theorem on a concrete two-turn transcript where only
the second turn carries a signal. -/
theorem extract_evidence_spec_witness :
    ((extract_evidence [⟨1, "CUSTOMER", "hi", "t1", none⟩, ⟨2, "AGENT", "hold on", "t1", none⟩]
        [(2, ["agent_delay"])]).map Evidence.turn_number).Pairwise (· < ·) :=
  (extract_evidence_spec
    [⟨1, "CUSTOMER", "hi", "t1", none⟩, ⟨2, "AGENT", "hold on", "t1", none⟩]
    [(2, ["agent_delay"])]).2 (by decide)

/-- Claim C9: for a non-empty turn list the risk score lies in the closed
unit interval; with no extracted signals it is exactly 0 and the analyze
operation's escalated flag (risk score strictly above 0.6) is false. -/
theorem calculate_risk_score_bounds (turns : List PTurn) (all_signals : List String)
    (turn_signals : SignalDict) (h : turns ≠ []) :
    0 ≤ calculate_risk_score turns all_signals turn_signals
    ∧ calculate_risk_score turns all_signals turn_signals ≤ 1
    ∧ (all_signals = [] →
        calculate_risk_score turns all_signals turn_signals = 0
        ∧ escalated turns all_signals turn_signals = false) := by
  by_cases hs : all_signals = []
  · subst hs
    have h0 : calculate_risk_score turns [] turn_signals = 0 := by
      simp [calculate_risk_score]
    refine ⟨by rw [h0], by rw [h0]; norm_num, fun _ => ⟨h0, ?_⟩⟩
    unfold escalated
    rw [h0]
    exact decide_eq_false (by norm_num)
  · unfold calculate_risk_score
    rw [if_neg hs]
    dsimp only
    refine ⟨?_, min_le_left _ _, fun he => absurd he hs⟩
    have hbase : (0 : ℚ) ≤ min 1 ((all_signals.length : ℚ) / (turns.length : ℚ)) :=
      le_min zero_le_one (by positivity)
    by_cases hp : ((turn_signals.filter (fun p => !p.2.isEmpty)).map (fun p => p.1)) = []
    · rw [if_pos hp]
      exact le_min zero_le_one hbase
    · rw [if_neg hp]
      refine le_min zero_le_one ?_
      have hpos : (0 : ℚ) ≤
          (((((turn_signals.filter (fun p => !p.2.isEmpty)).map (fun p => p.1)).sum : ℕ) : ℚ)
              / (((turn_signals.filter (fun p => !p.2.isEmpty)).map (fun p => p.1)).length : ℚ))
            / (turns.length : ℚ) := by positivity
      have h6 : (0 : ℚ) ≤ min 1 ((all_signals.length : ℚ) / (turns.length : ℚ)) * 0.6 :=
        mul_nonneg hbase (by norm_num)
      have h4 : (0 : ℚ) ≤
          (((((turn_signals.filter (fun p => !p.2.isEmpty)).map (fun p => p.1)).sum : ℕ) : ℚ)
              / (((turn_signals.filter (fun p => !p.2.isEmpty)).map (fun p => p.1)).length : ℚ))
            / (turns.length : ℚ) * 0.4 :=
        mul_nonneg hpos (by norm_num)
      linarith

/-- Witness for the C9 theorem on a concrete one-turn transcript without
signals. -/
theorem calculate_risk_score_bounds_witness :
    calculate_risk_score [⟨1, "CUSTOMER", "hi", "t1", none⟩] [] [] = 0
    ∧ escalated [⟨1, "CUSTOMER", "hi", "t1", none⟩] [] [] = false :=
  (calculate_risk_score_bounds [⟨1, "CUSTOMER", "hi", "t1", none⟩] [] []
    (by decide)).2.2 rfl

/-- Claim C7: every entry the chain-statistics accessor returns stems from a
stored record passing both filters (confidence at least the minimum, and at
least the requested evidence, which the entry's occurrence count also
satisfies directly), the returned list is sorted by confidence in descending
order, and it never exceeds 50 entries. -/
theorem get_chain_stats_spec (chain_stats : List (List String × ChainStats))
    (min_confidence : ℚ) (min_evidence : Nat) :
    (∀ e ∈ get_chain_stats chain_stats min_confidence min_evidence,
        min_evidence ≤ e.occurrences ∧
        ∃ p ∈ chain_stats, e = mkChainEntry p ∧ min_confidence ≤ p.2.confidence
          ∧ min_evidence ≤ p.2.occurrences)
    ∧ (get_chain_stats chain_stats min_confidence min_evidence).Pairwise confGE
    ∧ (get_chain_stats chain_stats min_confidence min_evidence).length ≤ 50 := by
  refine ⟨?_, ?_, ?_⟩
  · intro e he
    have he1 : e ∈ List.insertionSort confGE
        ((chain_stats.filter (fun p =>
          decide (min_confidence ≤ p.2.confidence)
            && decide (min_evidence ≤ p.2.occurrences))).map mkChainEntry) :=
      (List.take_sublist _ _).subset he
    have he2 := (List.perm_insertionSort confGE _).subset he1
    rw [List.mem_map] at he2
    obtain ⟨p, hp, rfl⟩ := he2
    rw [List.mem_filter] at hp
    obtain ⟨hpcs, hpred⟩ := hp
    simp only [Bool.and_eq_true, decide_eq_true_eq] at hpred
    exact ⟨hpred.2, p, hpcs, rfl, hpred.1, hpred.2⟩
  · exact List.Pairwise.sublist (List.take_sublist _ _)
      (List.sorted_insertionSort confGE _)
  · exact List.length_take_le _ _

/-- Witness for the C7 theorem on a one-record statistics mapping. -/
theorem get_chain_stats_spec_witness :
    (5 : Nat) ≤ (mkChainEntry (["customer_frustration"],
        ⟨0.8, (0.6, 0.9), 7, 6, 1⟩)).occurrences :=
  ((get_chain_stats_spec [(["customer_frustration"], ⟨0.8, (0.6, 0.9), 7, 6, 1⟩)] 0.5 5).1
    (mkChainEntry (["customer_frustration"], ⟨0.8, (0.6, 0.9), 7, 6, 1⟩))
    (by norm_num [get_chain_stats, List.filter_cons, List.insertionSort, List.orderedInsert])).1

end CausalApi
